import Mathlib

/-!
Verification of the autotask-mcp core against its design spec.

The development shallowly embeds the two core source files:

* `src/mcp/server.ts` — the Protocol Dispatcher (`AutotaskMcpServer.setupHandlers`):
  four request handlers registered with the MCP server, each calling one
  capability-handler operation, wrapping the result, and normalizing any thrown
  failure into an `McpError(ErrorCode.InternalError, ...)` envelope.
* `src/http/server.ts` (`createHttpServer`) — the Stateless Transport Adapter:
  the `POST /mcp` express handler that builds one ephemeral
  `StreamableHTTPServerTransport` per call, registers an error callback and a
  response-close teardown hook, connects the MCP server, processes the body,
  and on failure sends a synthesized 500 JSON-RPC error envelope when no
  response headers were sent yet.

Capability handlers (resource/tool handler classes) are external collaborators:
they are modelled as inputs (`Handlers`), each operation returning either a
domain value or a thrown JavaScript value (`Except Thrown`).
-/

/-! ## Thrown JavaScript values

A JS `catch (error)` can receive any value.  The dispatcher's only inspection
of it is `error instanceof Error ? error.message : 'Unknown error'`.  We model
a thrown value as either an `Error` instance carrying its message string, or a
non-`Error` value (a thrown string, a plain object possibly carrying a
`message` field, a number, ...) whose textual content — when it even has one —
is carried but never consulted by the dispatcher. -/
inductive Thrown where
  | errorInstance (message : String)
  | nonError (text : Option String)
deriving DecidableEq, Repr

/-- Embeds the source expression
`error instanceof Error ? error.message : 'Unknown error'`
(appearing verbatim in all four catch blocks of `setupHandlers`). -/
def causeText : Thrown → String
  | .errorInstance m => m
  | .nonError _ => "Unknown error"

/-- Numeric value of `ErrorCode.InternalError` from the MCP SDK (JSON-RPC
internal error). -/
def InternalError : Int := -32603

/-- Argument mapping for a tool call (`params.arguments`); the dispatcher
never inspects it, only passes it through, so a simple association list
suffices; the empty mapping `{}` is `[]`. -/
def ArgMap : Type := List (String × String)
deriving DecidableEq, Repr

/-- A tool result as returned by the tool handler's `callTool`:
`{content: sequence of content blocks, isError: boolean}`. -/
structure ToolResult (Block : Type) where
  content : List Block
  isError : Bool
deriving DecidableEq, Repr

/-- The capability handlers the dispatcher calls (external collaborators
`AutotaskResourceHandler` and `EnhancedAutotaskToolHandler`).  Each operation
either returns domain data or fails with a thrown value.  The payload types
(resource descriptors, resource content, tool descriptors, content blocks) are
opaque to the dispatcher, hence type parameters. -/
structure Handlers (Resource Content Tool Block : Type) where
  listResources : Except Thrown (List Resource)
  readResource : String → Except Thrown Content
  listTools : Except Thrown (List Tool)
  callTool : String → ArgMap → Except Thrown (ToolResult Block)

/-- The four protocol request kinds `setupHandlers` registers handlers for.
For `callTool`, `arguments` is optional in the wire request
(`request.params.arguments` may be absent). -/
inductive McpRequest where
  | listResources
  | readResource (uri : String)
  | listTools
  | callTool (name : String) (arguments : Option ArgMap)

/-- A dispatcher outcome: one of the four success payload shapes built by the
handlers in `setupHandlers`, or a thrown `McpError` (code plus message). -/
inductive McpResponse (Resource Content Tool Block : Type) where
  | listResourcesResult (resources : List Resource)
  | readResourceResult (contents : List Content)
  | listToolsResult (tools : List Tool)
  | callToolResult (content : List Block) (isError : Bool)
  | mcpError (code : Int) (message : String)
deriving DecidableEq, Repr

section Dispatcher

variable {Resource Content Tool Block : Type}

/-- The `ListResourcesRequestSchema` handler: calls
`resourceHandler.listResources()`, returns `{ resources }`; on a thrown
failure, throws `McpError(InternalError, "Failed to list resources: " + cause)`. -/
def handleListResources (h : Handlers Resource Content Tool Block) :
    McpResponse Resource Content Tool Block :=
  match h.listResources with
  | .ok resources => .listResourcesResult resources
  | .error e => .mcpError InternalError ("Failed to list resources: " ++ causeText e)

/-- The `ReadResourceRequestSchema` handler: calls
`resourceHandler.readResource(request.params.uri)`, returns
`{ contents: [content] }`; on a thrown failure, throws
`McpError(InternalError, "Failed to read resource: " + cause)`. -/
def handleReadResource (h : Handlers Resource Content Tool Block) (uri : String) :
    McpResponse Resource Content Tool Block :=
  match h.readResource uri with
  | .ok content => .readResourceResult [content]
  | .error e => .mcpError InternalError ("Failed to read resource: " ++ causeText e)

/-- The `ListToolsRequestSchema` handler: calls `toolHandler.listTools()`,
returns `{ tools }`; on a thrown failure, throws
`McpError(InternalError, "Failed to list tools: " + cause)`. -/
def handleListTools (h : Handlers Resource Content Tool Block) :
    McpResponse Resource Content Tool Block :=
  match h.listTools with
  | .ok tools => .listToolsResult tools
  | .error e => .mcpError InternalError ("Failed to list tools: " ++ causeText e)

/-- Embeds `request.params.arguments || {}`: a JS object is always truthy, so
the fallback fires exactly when the field is absent. -/
def resolvedArgs (arguments : Option ArgMap) : ArgMap :=
  arguments.getD []

/-- The `CallToolRequestSchema` handler: calls
`toolHandler.callTool(request.params.name, request.params.arguments || {})`,
returns `{ content: result.content, isError: result.isError }`; on a thrown
failure, throws `McpError(InternalError, "Failed to call tool: " + cause)`. -/
def handleCallTool (h : Handlers Resource Content Tool Block)
    (name : String) (arguments : Option ArgMap) :
    McpResponse Resource Content Tool Block :=
  match h.callTool name (resolvedArgs arguments) with
  | .ok result => .callToolResult result.content result.isError
  | .error e => .mcpError InternalError ("Failed to call tool: " ++ causeText e)

/-- The dispatch map set up by `setupHandlers`: each of the four request kinds
is routed to exactly one registered handler. -/
def dispatch (h : Handlers Resource Content Tool Block) :
    McpRequest → McpResponse Resource Content Tool Block
  | .listResources => handleListResources h
  | .readResource uri => handleReadResource h uri
  | .listTools => handleListTools h
  | .callTool name arguments => handleCallTool h name arguments

/-- The fixed operation-identifying message head used by the catch block of
each of the four handlers (each template literal's constant part). -/
def opMsgHead : McpRequest → String
  | .listResources => "Failed to list resources: "
  | .readResource _ => "Failed to read resource: "
  | .listTools => "Failed to list tools: "
  | .callTool _ _ => "Failed to call tool: "

/-- The capability call a request routes to fails with thrown value `e`. -/
def callFails (h : Handlers Resource Content Tool Block) :
    McpRequest → Thrown → Prop
  | .listResources, e => h.listResources = .error e
  | .readResource uri, e => h.readResource uri = .error e
  | .listTools, e => h.listTools = .error e
  | .callTool name arguments, e =>
      h.callTool name (resolvedArgs arguments) = .error e

end Dispatcher

/-- Concrete handlers all of whose operations fail with `e` (payload types
instantiated to `String`), used to exercise the theorems on concrete input. -/
def errHandlers (e : Thrown) : Handlers String String String String where
  listResources := .error e
  readResource := fun _ => .error e
  listTools := .error e
  callTool := fun _ _ => .error e

/-- Concrete handlers all of whose operations succeed, used to exercise the
theorems on concrete input. -/
def okHandlers : Handlers String String String String where
  listResources := .ok ["companies"]
  readResource := fun uri => .ok ("content of " ++ uri)
  listTools := .ok ["search_companies", "create_ticket"]
  callTool := fun name _ => .ok { content := ["ran " ++ name], isError := false }

/-- Concrete handlers whose tool invocation succeeds with a tool-reported
failure (`isError := true`), used to exercise the theorems on concrete
input. -/
def toolFailHandlers : Handlers String String String String where
  listResources := .ok []
  readResource := fun _ => .ok ""
  listTools := .ok []
  callTool := fun name _ =>
    .ok { content := ["tool could not run " ++ name], isError := true }

/-! ## Stateless Transport Adapter (`createHttpServer`, `POST /mcp` handler)

The express handler body is straight-line code in a try/catch:

1. `new StreamableHTTPServerTransport({ sessionIdGenerator: undefined })`
   (plain field-initializing construction — it performs no I/O and cannot
   fail);
2. `transport.onerror = ...` (install error callback);
3. `res.on('close', () => { try { transport.close() } catch { log } })`
   (register the teardown hook);
4. `await mcpServer.connect(transport)` (may reject);
5. `await transport.handleRequest(req, res, req.body)` (may reject, possibly
   after having started writing the response);
`catch`: log, and if `!res.headersSent` respond
`500 {jsonrpc: "2.0", error: {code: -32603, message: "Internal server error"}, id: null}`.

We embed the handler as a function from a failure-injection description
(`CallBehavior`: which awaited step rejects, whether the response had begun,
whether `transport.close()` throws) to the trace of events and response
writes it performs.  Node fires a response's `close` event exactly once; the
hook's firing is appended after the handler's own trace in
`runStatelessCall`. -/

/-- Options object passed to the transport constructor.  The session
identifier generator is modelled as an optional producer of identifier
strings; the source passes `undefined`. -/
structure TransportOptions where
  sessionIdGenerator : Option String
deriving DecidableEq, Repr

/-- The options the source constructs the transport with:
`{ sessionIdGenerator: undefined }` — stateless mode, session-identifier
generation disabled. -/
def statelessTransportOptions : TransportOptions :=
  { sessionIdGenerator := none }

/-- Observable events of one `POST /mcp` call, in program order. -/
inductive Ev where
  | constructSession (sessionIdGenerator : Option String)
  | installOnError
  | registerCloseHook
  | connect
  | process
  | logHandlerError
  | send500
  | closeTransport
  | logCloseError
deriving DecidableEq, Repr

/-- The exact JSON body of the synthesized error response
`{jsonrpc: "2.0", error: {code: -32603, message: "Internal server error"}, id: null}`. -/
structure ErrorBody where
  jsonrpc : String
  code : Int
  message : String
  idNull : Bool
deriving DecidableEq, Repr

/-- The literal envelope the catch block sends. -/
def internalServerErrorBody : ErrorBody :=
  { jsonrpc := "2.0", code := -32603, message := "Internal server error", idNull := true }

/-- A write onto the HTTP response stream: either the transport streaming the
protocol response (`handleRequest` writing to `res`), or the catch block's
`res.status(500).json(...)`. -/
inductive ResWrite where
  | streamed
  | statusJson (status : Nat) (body : ErrorBody)
deriving DecidableEq, Repr

/-- Failure injection for one inbound call: which awaited operation rejects
(`mcpServer.connect`, `transport.handleRequest`), whether `handleRequest` had
already written response bytes when it rejected, and whether
`transport.close()` throws inside the close hook. -/
structure CallBehavior where
  connectFails : Bool
  processFails : Bool
  processWroteBeforeFail : Bool
  closeThrows : Bool
deriving DecidableEq, Repr

/-- State accumulated by the handler: its event trace, the writes made to the
response stream, and whether the close hook got registered. -/
structure HandlerResult where
  events : List Ev
  writes : List ResWrite
  closeHookRegistered : Bool
deriving DecidableEq, Repr

/-- The catch clause: log the failure; if no response bytes were written yet
(`!res.headersSent`), send the synthesized 500 envelope, else do nothing
further. -/
def catchClause (st : HandlerResult) : HandlerResult :=
  let st := { st with events := st.events ++ [Ev.logHandlerError] }
  if st.writes.isEmpty then
    { st with
      events := st.events ++ [Ev.send500],
      writes := st.writes ++ [ResWrite.statusJson 500 internalServerErrorBody] }
  else st

/-- The `POST /mcp` express handler body for one inbound call under failure
injection `b`, step for step in source order. -/
def runMcpPost (b : CallBehavior) : HandlerResult :=
  let st : HandlerResult := { events := [], writes := [], closeHookRegistered := false }
  let st := { st with
    events := st.events ++ [Ev.constructSession statelessTransportOptions.sessionIdGenerator] }
  let st := { st with events := st.events ++ [Ev.installOnError] }
  let st := { st with
    events := st.events ++ [Ev.registerCloseHook], closeHookRegistered := true }
  let st := { st with events := st.events ++ [Ev.connect] }
  if b.connectFails then catchClause st
  else
    let written : List ResWrite :=
      if b.processFails then
        if b.processWroteBeforeFail then [ResWrite.streamed] else []
      else [ResWrite.streamed]
    let st := { st with
      events := st.events ++ [Ev.process], writes := st.writes ++ written }
    if b.processFails then catchClause st else st

/-- Models `transport.close()`: succeeds, or throws. -/
def transportClose (closeThrows : Bool) : Except String Unit :=
  if closeThrows then .error "close failed" else .ok ()

/-- The body of the `res.on('close', ...)` callback:
`try { transport.close() } catch (err) { logger.error(...) }`.  It returns a
plain event list — the catch swallows a teardown failure, so no exception can
escape to the HTTP layer. -/
def closeHookBody (closeThrows : Bool) : List Ev :=
  match transportClose closeThrows with
  | .ok _ => [Ev.closeTransport]
  | .error _ => [Ev.closeTransport, Ev.logCloseError]

/-- Full trace of one stateless HTTP call: the handler's own trace, followed
by the close hook firing when the response stream closes (Node emits `close`
exactly once per response, whether by normal completion, client disconnect,
or error). -/
def runStatelessCall (b : CallBehavior) : List Ev :=
  let st := runMcpPost b
  st.events ++ (if st.closeHookRegistered then closeHookBody b.closeThrows else [])

/-- Concrete behavior: no failure anywhere. -/
def happyCall : CallBehavior :=
  { connectFails := false, processFails := false,
    processWroteBeforeFail := false, closeThrows := false }

/-- Concrete behavior: `mcpServer.connect` rejects. -/
def connectFailCall : CallBehavior :=
  { connectFails := true, processFails := false,
    processWroteBeforeFail := false, closeThrows := false }

/-- Concrete behavior: `transport.handleRequest` rejects after having written
response bytes, and `transport.close()` throws in the close hook. -/
def lateFailCall : CallBehavior :=
  { connectFails := false, processFails := true,
    processWroteBeforeFail := true, closeThrows := true }

/-- The five adapter steps of one call, in source order; the construction
carries the session-identifier generator the source passes. -/
def canonicalSteps : List Ev :=
  [Ev.constructSession statelessTransportOptions.sessionIdGenerator,
   Ev.installOnError, Ev.registerCloseHook, Ev.connect, Ev.process]

/-- Whether an event is one of the five adapter steps (as opposed to
logging, the synthesized 500 write, or teardown). -/
def isStepEv : Ev → Bool
  | .constructSession _ => true
  | .installOnError => true
  | .registerCloseHook => true
  | .connect => true
  | .process => true
  | _ => false

/-- The adapter steps a call performs, in the order it performs them. -/
def stepTrace (b : CallBehavior) : List Ev :=
  (runMcpPost b).events.filter isStepEv

example :
    runStatelessCall happyCall
    = [Ev.constructSession none, Ev.installOnError, Ev.registerCloseHook,
       Ev.connect, Ev.process, Ev.closeTransport] := by decide

example :
    (runMcpPost connectFailCall).writes
    = [ResWrite.statusJson 500 internalServerErrorBody] := by decide

/-- Shared lemma: whenever the routed capability call fails with `e`, the
dispatcher yields the internal-error envelope with the operation's message
head followed by `causeText e`. -/
theorem dispatch_of_callFails {Resource Content Tool Block : Type}
    (h : Handlers Resource Content Tool Block)
    (r : McpRequest) (e : Thrown) (hf : callFails h r e) :
    dispatch h r = .mcpError InternalError (opMsgHead r ++ causeText e) := by
  cases r <;>
    simp only [callFails] at hf <;>
    simp [dispatch, handleListResources, handleReadResource, handleListTools,
      handleCallTool, opMsgHead, hf]

/-! ## Claim theorems — Protocol Dispatcher -/

/-- C1: for every one of the four protocol request kinds and every failure
thrown by the invoked capability handler, the dispatcher returns a protocol
error envelope with numeric code -32603 whose message is the fixed head
identifying the failed operation followed by the original error's message
text when the thrown value is an `Error` instance, else exactly the literal
"Unknown error". -/
theorem dispatcher_failure_yields_internal_error_envelope
    {Resource Content Tool Block : Type}
    (h : Handlers Resource Content Tool Block) (r : McpRequest) (e : Thrown)
    (hf : callFails h r e) :
    dispatch h r = .mcpError (-32603)
      (opMsgHead r ++ match e with
        | .errorInstance m => m
        | .nonError _ => "Unknown error") := by
  have hd := dispatch_of_callFails h r e hf
  cases e <;> simpa [InternalError, causeText] using hd

/-- Witness for C1 at a concrete failing handler and request. -/
theorem dispatcher_failure_yields_internal_error_envelope_witness :
    callFails (errHandlers (Thrown.errorInstance "boom"))
        (McpRequest.readResource "autotask://companies")
        (Thrown.errorInstance "boom")
    ∧ dispatch (errHandlers (Thrown.errorInstance "boom"))
        (McpRequest.readResource "autotask://companies")
      = .mcpError (-32603) "Failed to read resource: boom" :=
  ⟨rfl,
    dispatcher_failure_yields_internal_error_envelope
      (errHandlers (Thrown.errorInstance "boom"))
      (McpRequest.readResource "autotask://companies")
      (Thrown.errorInstance "boom") rfl⟩

/-- C9: a handler-thrown value that is not an `Error` instance — including a
thrown string or a thrown plain object carrying a textual `message` field —
always yields the "Unknown error" suffix: the `instanceof Error` test alone
decides, not whether textual content was recoverable from the thrown value. -/
theorem non_error_thrown_yields_unknown_error
    {Resource Content Tool Block : Type}
    (h : Handlers Resource Content Tool Block) (r : McpRequest)
    (t : Option String) (hf : callFails h r (Thrown.nonError t)) :
    dispatch h r = .mcpError (-32603) (opMsgHead r ++ "Unknown error") := by
  have hd := dispatch_of_callFails h r (Thrown.nonError t) hf
  simpa [InternalError, causeText] using hd

/-- Witness for C9 at a thrown non-`Error` object that does carry a textual
message: the suffix is still "Unknown error". -/
theorem non_error_thrown_yields_unknown_error_witness :
    callFails (errHandlers (Thrown.nonError (some "boom"))) McpRequest.listResources
        (Thrown.nonError (some "boom"))
    ∧ dispatch (errHandlers (Thrown.nonError (some "boom"))) McpRequest.listResources
      = .mcpError (-32603) ("Failed to list resources: " ++ "Unknown error") :=
  ⟨rfl,
    non_error_thrown_yields_unknown_error
      (errHandlers (Thrown.nonError (some "boom"))) McpRequest.listResources
      (some "boom") rfl⟩

/-- C4: every successful capability-handler call produces exactly the
specified response shape: `{resources: sequence}` for list_resources,
`{contents: [item]}` for read_resource, `{tools: sequence}` for list_tools,
and `{content: result.content, isError: result.isError}` with the handler's
output passed through unmodified for call_tool. -/
theorem dispatcher_success_response_shapes
    {Resource Content Tool Block : Type}
    (h : Handlers Resource Content Tool Block) :
    (∀ rs, h.listResources = .ok rs →
        dispatch h .listResources = .listResourcesResult rs)
    ∧ (∀ uri c, h.readResource uri = .ok c →
        dispatch h (.readResource uri) = .readResourceResult [c])
    ∧ (∀ ts, h.listTools = .ok ts →
        dispatch h .listTools = .listToolsResult ts)
    ∧ (∀ name a result, h.callTool name (resolvedArgs a) = .ok result →
        dispatch h (.callTool name a)
          = .callToolResult result.content result.isError) := by
  refine ⟨fun rs hrs => ?_, fun uri c hc => ?_, fun ts hts => ?_,
    fun name a result hr => ?_⟩ <;>
  simp [dispatch, handleListResources, handleReadResource, handleListTools,
    handleCallTool, *]

/-- Witness for C4 at concrete succeeding handlers, one instance per request
kind. -/
theorem dispatcher_success_response_shapes_witness :
    dispatch okHandlers McpRequest.listResources
        = .listResourcesResult ["companies"]
    ∧ dispatch okHandlers (McpRequest.readResource "autotask://tickets")
        = .readResourceResult ["content of autotask://tickets"]
    ∧ dispatch okHandlers McpRequest.listTools
        = .listToolsResult ["search_companies", "create_ticket"]
    ∧ dispatch okHandlers (McpRequest.callTool "test_connection" none)
        = .callToolResult ["ran test_connection"] false :=
  ⟨(dispatcher_success_response_shapes okHandlers).1 ["companies"] rfl,
    (dispatcher_success_response_shapes okHandlers).2.1 "autotask://tickets"
      "content of autotask://tickets" rfl,
    (dispatcher_success_response_shapes okHandlers).2.2.1
      ["search_companies", "create_ticket"] rfl,
    (dispatcher_success_response_shapes okHandlers).2.2.2 "test_connection" none
      { content := ["ran test_connection"], isError := false } rfl⟩

/-- C5: a tool result the tool handler returns with `isError := true` is
forwarded as a protocol-level success envelope carrying `content` and
`isError` verbatim, and is never converted into a protocol error envelope. -/
theorem tool_isError_passthrough
    {Resource Content Tool Block : Type}
    (h : Handlers Resource Content Tool Block)
    (name : String) (a : Option ArgMap) (result : ToolResult Block)
    (hok : h.callTool name (resolvedArgs a) = .ok result)
    (herr : result.isError = true) :
    dispatch h (.callTool name a) = .callToolResult result.content true
    ∧ ∀ code msg, dispatch h (.callTool name a) ≠ .mcpError code msg := by
  have h1 : dispatch h (.callTool name a)
      = .callToolResult result.content result.isError := by
    simp [dispatch, handleCallTool, hok]
  rw [herr] at h1
  exact ⟨h1, fun code msg hcontra => by
    rw [h1] at hcontra
    exact McpResponse.noConfusion hcontra⟩

/-- Witness for C5 at concrete handlers returning `isError := true`. -/
theorem tool_isError_passthrough_witness :
    toolFailHandlers.callTool "create_ticket" (resolvedArgs none)
      = .ok { content := ["tool could not run create_ticket"], isError := true }
    ∧ dispatch toolFailHandlers (McpRequest.callTool "create_ticket" none)
      = .callToolResult ["tool could not run create_ticket"] true :=
  ⟨rfl,
    (tool_isError_passthrough toolFailHandlers "create_ticket" none
      { content := ["tool could not run create_ticket"], isError := true }
      rfl rfl).1⟩

/-- Counterexample to C6 as frozen: with the tool handler's list operation
failing on an `Error` whose message is "boom", the dispatcher's protocol
error message is "Failed to list tools: boom" — the literal
"Failed to list tools" is only the head of the message, not the whole
message. -/
theorem listTools_error_message_not_literal :
    dispatch (errHandlers (Thrown.errorInstance "boom")) McpRequest.listTools
      = .mcpError (-32603) ("Failed to list tools: " ++ "boom")
    ∧ ("Failed to list tools: " ++ "boom") ≠ "Failed to list tools" := by
  exact ⟨by decide, by decide⟩

/-- C6 amended: when the tool handler's list operation fails, the
dispatcher's protocol error message is "Failed to list tools: " followed by
the cause text (the `Error` instance's message, else "Unknown error"). -/
theorem listTools_failure_message_head
    {Resource Content Tool Block : Type}
    (h : Handlers Resource Content Tool Block) (e : Thrown)
    (hf : h.listTools = .error e) :
    dispatch h McpRequest.listTools
      = .mcpError (-32603) ("Failed to list tools: " ++ causeText e) := by
  simp [dispatch, handleListTools, InternalError, hf]

/-- Witness for the amended C6 at a concrete failing handler. -/
theorem listTools_failure_message_head_witness :
    (errHandlers (Thrown.errorInstance "boom")).listTools
      = .error (Thrown.errorInstance "boom")
    ∧ dispatch (errHandlers (Thrown.errorInstance "boom")) McpRequest.listTools
      = .mcpError (-32603)
          ("Failed to list tools: " ++ causeText (Thrown.errorInstance "boom")) :=
  ⟨rfl,
    listTools_failure_message_head (errHandlers (Thrown.errorInstance "boom"))
      (Thrown.errorInstance "boom") rfl⟩

/-- C7: invoking call_tool with the `arguments` parameter omitted is
equivalent to invoking it with the empty mapping: the tool handler's invoke
operation receives `(name, {})` in both cases and the dispatch result is
identical. -/
theorem callTool_omitted_args_eq_empty_args
    {Resource Content Tool Block : Type}
    (h : Handlers Resource Content Tool Block) (name : String) :
    resolvedArgs none = ([] : ArgMap)
    ∧ resolvedArgs (some ([] : ArgMap)) = ([] : ArgMap)
    ∧ dispatch h (.callTool name none) = dispatch h (.callTool name (some [])) :=
  ⟨rfl, rfl, rfl⟩

/-! ## Claim theorems — Stateless Transport Adapter -/

/-- C2: for every inbound stateless HTTP call, if binding or request
processing fails before any response bytes were sent, the handler's sole
response write is status 500 with exactly the body
`{jsonrpc: "2.0", error: {code: -32603, message: "Internal server error"}, id: null}`;
if response headers were already sent when the failure occurs, the failure
is only logged and no second response write is attempted.  (Session
construction is plain field initialization in the source and cannot fail.) -/
theorem adapter_failure_response_policy (b : CallBehavior) :
    ((b.connectFails = true
        ∨ (b.processFails = true ∧ b.processWroteBeforeFail = false)) →
      (runMcpPost b).writes = [ResWrite.statusJson 500 internalServerErrorBody])
    ∧ ((b.connectFails = false ∧ b.processFails = true
        ∧ b.processWroteBeforeFail = true) →
      (runMcpPost b).writes = [ResWrite.streamed]
      ∧ Ev.logHandlerError ∈ (runMcpPost b).events
      ∧ Ev.send500 ∉ (runMcpPost b).events) := by
  obtain ⟨cf, pf, pw, ct⟩ := b
  cases cf <;> cases pf <;> cases pw <;> cases ct <;> decide

/-- Witness for C2: a failing bind yields exactly the 500 envelope; a
processing failure after response bytes were sent is only logged. -/
theorem adapter_failure_response_policy_witness :
    (runMcpPost connectFailCall).writes
      = [ResWrite.statusJson 500 internalServerErrorBody]
    ∧ (runMcpPost lateFailCall).writes = [ResWrite.streamed]
    ∧ Ev.logHandlerError ∈ (runMcpPost lateFailCall).events
    ∧ Ev.send500 ∉ (runMcpPost lateFailCall).events :=
  ⟨(adapter_failure_response_policy connectFailCall).1 (Or.inl rfl),
    ((adapter_failure_response_policy lateFailCall).2 ⟨rfl, rfl, rfl⟩).1,
    ((adapter_failure_response_policy lateFailCall).2 ⟨rfl, rfl, rfl⟩).2.1,
    ((adapter_failure_response_policy lateFailCall).2 ⟨rfl, rfl, rfl⟩).2.2⟩

/-- C3: every inbound stateless HTTP call constructs exactly one fresh
transport session (never pooled or reused: the construction event occurs
once per call trace) and tears it down exactly once when the response
stream closes, whatever the call's outcome; a failure during teardown is
logged (`logCloseError` appears exactly in the throwing case) and never
propagated — `closeHookBody` returns a plain event list, no exception
escapes it. -/
theorem session_created_once_torn_down_once (b : CallBehavior) :
    (runStatelessCall b).count (Ev.constructSession none) = 1
    ∧ (runStatelessCall b).count Ev.closeTransport = 1
    ∧ (b.closeThrows = true → Ev.logCloseError ∈ runStatelessCall b)
    ∧ (b.closeThrows = false → Ev.logCloseError ∉ runStatelessCall b) := by
  obtain ⟨cf, pf, pw, ct⟩ := b
  cases cf <;> cases pf <;> cases pw <;> cases ct <;> decide

/-- Witness for C3 on a call that fails late and whose teardown throws. -/
theorem session_created_once_torn_down_once_witness :
    (runStatelessCall lateFailCall).count (Ev.constructSession none) = 1
    ∧ (runStatelessCall lateFailCall).count Ev.closeTransport = 1
    ∧ Ev.logCloseError ∈ runStatelessCall lateFailCall :=
  ⟨(session_created_once_torn_down_once lateFailCall).1,
    (session_created_once_torn_down_once lateFailCall).2.1,
    (session_created_once_torn_down_once lateFailCall).2.2.1 rfl⟩

/-- C8: within every single stateless HTTP call the adapter's steps happen
in strict order — construct the session with session-identifier generation
disabled, install the error callback, register the response-close teardown
hook, bind to the dispatcher, hand over the body for processing: the
performed steps are an initial segment of that sequence, always reach the
bind, and reach processing whenever the bind does not fail. -/
theorem adapter_steps_in_strict_order (b : CallBehavior) :
    statelessTransportOptions.sessionIdGenerator = none
    ∧ stepTrace b = canonicalSteps.take (stepTrace b).length
    ∧ 4 ≤ (stepTrace b).length
    ∧ (b.connectFails = false → stepTrace b = canonicalSteps) := by
  obtain ⟨cf, pf, pw, ct⟩ := b
  cases cf <;> cases pf <;> cases pw <;> cases ct <;> decide

/-- Witness for C8: the full ordered sequence on an untroubled call, and
the ordered initial segment when the bind fails. -/
theorem adapter_steps_in_strict_order_witness :
    stepTrace happyCall = canonicalSteps
    ∧ stepTrace connectFailCall
      = canonicalSteps.take (stepTrace connectFailCall).length :=
  ⟨(adapter_steps_in_strict_order happyCall).2.2.2 rfl,
    (adapter_steps_in_strict_order connectFailCall).2.1⟩

/-- C10: the response-close teardown hook is registered before the session
is bound to the dispatcher (the first four events of every call are
construct, install, register, bind in that order), so even when the bind or
the processing fails and the synthesized 500 envelope path runs instead of
a normal response, the hook is registered and teardown still occurs exactly
once when the response stream closes. -/
theorem close_hook_registered_before_bind (b : CallBehavior) :
    (runMcpPost b).events.take 4
      = [Ev.constructSession none, Ev.installOnError,
         Ev.registerCloseHook, Ev.connect]
    ∧ ((b.connectFails = true ∨ b.processFails = true) →
        (runMcpPost b).closeHookRegistered = true
        ∧ (runStatelessCall b).count Ev.closeTransport = 1) := by
  obtain ⟨cf, pf, pw, ct⟩ := b
  cases cf <;> cases pf <;> cases pw <;> cases ct <;> decide

/-- Witness for C10 on a call whose bind fails. -/
theorem close_hook_registered_before_bind_witness :
    (runMcpPost connectFailCall).events.take 4
      = [Ev.constructSession none, Ev.installOnError,
         Ev.registerCloseHook, Ev.connect]
    ∧ (runMcpPost connectFailCall).closeHookRegistered = true
    ∧ (runStatelessCall connectFailCall).count Ev.closeTransport = 1 :=
  ⟨(close_hook_registered_before_bind connectFailCall).1,
    ((close_hook_registered_before_bind connectFailCall).2 (Or.inl rfl)).1,
    ((close_hook_registered_before_bind connectFailCall).2 (Or.inl rfl)).2⟩
